import Mathlib

/-!
Verification development for the KnowMe mental-health analysis backend.

The Python pipeline (`data_processor.py`, `openai_service.py`, `main.py`) is
shallowly embedded below: record batches are lists of a `Record` structure,
scores are rationals, timestamps are rational "days since an epoch" whose
calendar date is the floor, and Python strings are Lean strings processed at
the level of their character lists.
-/

namespace KnowMe

/-- One input activity record (`models.InputDataPoint`), restricted to the
fields the analysis pipeline reads.  The timestamp is modelled as a rational
number of days since an epoch; its calendar-date component is its floor. -/
structure Record where
  timestamp : ℚ
  caption_text : String
  hashtags : String
  sentiment_score : ℚ
  engagement_score : ℚ
  wellbeing_index : ℚ
  likes_count : ℤ
  comments_count : ℤ
  shares_count : ℤ
  time_spent_on_post : ℤ
  night_usage_minutes : ℤ
deriving DecidableEq

/-- Calendar date of a record: `df['timestamp'].dt.date` truncates the
timestamp to its date, modelled by the floor of the rational timestamp. -/
def recDate (r : Record) : ℤ := ⌊r.timestamp⌋

/-- Arithmetic mean of a list of rationals (pandas `Series.mean`). -/
def listMean (l : List ℚ) : ℚ := l.sum / l.length

/-- Lowercased character sequence of a Python string (`str.lower`). -/
def lowerChars (s : String) : List Char := s.toList.map Char.toLower

/-- Anxiety trigger substrings, from `DataProcessor.__init__`. -/
def anxietyKeywords : List String :=
  ["anxiety", "worried", "nervous", "panic", "stress", "overwhelmed"]

/-- Depression trigger substrings, from `DataProcessor.__init__`. -/
def depressionKeywords : List String :=
  ["depressed", "sad", "down", "hopeless", "empty", "worthless"]

/-- Stress trigger substrings, from `DataProcessor.__init__`. -/
def stressKeywords : List String :=
  ["stressed", "pressure", "deadline", "overwhelmed", "burnout", "exhausted"]

/-- Combined text scanned for keywords:
`f"{caption.lower()} {hashtags.lower()}"`. -/
def combinedLowerText (r : Record) : List Char :=
  lowerChars r.caption_text ++ ' ' :: lowerChars r.hashtags

/-- Python's `kw in text`: substring containment. -/
def containsKeyword (text : List Char) (kw : String) : Bool :=
  decide (kw.toList <:+: text)

/-- Python's `any(keyword in combined_text for keyword in keywords)`. -/
def matchesCategory (kws : List String) (r : Record) : Bool :=
  kws.any (containsKeyword (combinedLowerText r))

/-- Result of `DataProcessor._extract_mental_health_indicators`: the dict
`{'Anxiety': _, 'Stress': _, 'Depression': _}` of percentages. -/
structure Indicators where
  anxiety : ℚ
  stress : ℚ
  depression : ℚ
deriving DecidableEq

/-- `DataProcessor._extract_mental_health_indicators`: per-category count of
matching records, converted to a percentage of the batch size. -/
def extractMentalHealthIndicators (rs : List Record) : Indicators :=
  { anxiety := (rs.countP (matchesCategory anxietyKeywords) : ℚ) / rs.length * 100
    stress := (rs.countP (matchesCategory stressKeywords) : ℚ) / rs.length * 100
    depression := (rs.countP (matchesCategory depressionKeywords) : ℚ) / rs.length * 100 }

/-- Status ladder of `DataProcessor._calculate_wellbeing_metrics`. -/
def wellbeingStatus (avg : ℚ) : String :=
  if 80 ≤ avg then "Excellent"
  else if 60 ≤ avg then "Good"
  else if 40 ≤ avg then "Stable"
  else "Needs Attention"

/-- Result of `DataProcessor._calculate_wellbeing_metrics`. -/
structure WellbeingMetrics where
  wellbeing_score : ℚ
  sentiment_score : ℚ
  engagement_score : ℚ
  status : String
deriving DecidableEq

/-- `DataProcessor._calculate_wellbeing_metrics`: the three column means and
the status derived from the mean wellbeing index. -/
def calculateWellbeingMetrics (rs : List Record) : WellbeingMetrics :=
  { wellbeing_score := listMean (rs.map (·.wellbeing_index))
    sentiment_score := listMean (rs.map (·.sentiment_score))
    engagement_score := listMean (rs.map (·.engagement_score))
    status := wellbeingStatus (listMean (rs.map (·.wellbeing_index))) }

/-- Fixed stress vocabulary of `DataProcessor._analyze_topics` (order is the
tie-breaking order of the stable sort). -/
def stressWords : List String :=
  ["workload", "deadline", "sleep", "balance", "family",
   "exercise", "burnout", "pressure", "stress", "tired",
   "overwhelmed", "anxious", "worried", "exhausted"]

/-- Character substitution of `re.sub(r'[^\w\s]', ' ', text)`: a character
that is neither a word character (`\w`, i.e. alphanumeric or underscore) nor
whitespace is replaced by a space. -/
def pyCleanChar (c : Char) : Char :=
  if (c.isAlphanum || c = '_') || c.isWhitespace then c else ' '

/-- Helper for Python's `str.split()`: splits on whitespace runs, discarding
empty pieces; the second argument accumulates the current word reversed. -/
def splitWsAux : List Char → List Char → List (List Char)
  | [], acc => if acc.isEmpty then [] else [acc.reverse]
  | c :: cs, acc =>
    if c.isWhitespace then
      if acc.isEmpty then splitWsAux cs [] else acc.reverse :: splitWsAux cs []
    else splitWsAux cs (c :: acc)

/-- Tokenization of `DataProcessor._analyze_topics`: combine caption and
hashtags with a space, lowercase, apply the `re.sub` substitution, split on
whitespace. -/
def tokenizeText (caption hashtags : String) : List (List Char) :=
  splitWsAux (((caption ++ " " ++ hashtags).toList.map Char.toLower).map pyCleanChar) []

/-- Tokens contributed by one record. -/
def recordTokens (r : Record) : List (List Char) :=
  tokenizeText r.caption_text r.hashtags

/-- All tokens of the batch (the `words` list of `_analyze_topics`). -/
def allWords (rs : List Record) : List (List Char) :=
  rs.flatMap recordTokens

/-- `DataProcessor._analyze_topics`: count token occurrences, keep the
vocabulary words that occur at least once (in vocabulary order), stable-sort
by descending frequency, take the top 7. -/
def analyzeTopics (rs : List Record) : List (String × ℕ) :=
  (List.insertionSort (fun a b => b.2 ≤ a.2)
    (stressWords.filterMap fun w =>
      if (allWords rs).count w.toList = 0 then none
      else some (w, (allWords rs).count w.toList))).take 7

/-- One row of the `_calculate_daily_aggregates` output: per-date means of the
three scores and per-date sums of the count fields. -/
structure DailyAggregate where
  date : ℤ
  sentiment_score : ℚ
  engagement_score : ℚ
  wellbeing_index : ℚ
  likes_count : ℤ
  comments_count : ℤ
  shares_count : ℤ
  time_spent_on_post : ℤ
  night_usage_minutes : ℤ
deriving DecidableEq

/-- Records of the batch falling on a given calendar date. -/
def dateGroup (rs : List Record) (d : ℤ) : List Record :=
  rs.filter fun r => decide (recDate r = d)

/-- Aggregation of one date group: arithmetic means of the three scores and
sums of the count fields, per the `agg` dictionary of
`_calculate_daily_aggregates`. -/
def dailyAggregateFor (rs : List Record) (d : ℤ) : DailyAggregate :=
  { date := d
    sentiment_score := listMean ((dateGroup rs d).map (·.sentiment_score))
    engagement_score := listMean ((dateGroup rs d).map (·.engagement_score))
    wellbeing_index := listMean ((dateGroup rs d).map (·.wellbeing_index))
    likes_count := ((dateGroup rs d).map (·.likes_count)).sum
    comments_count := ((dateGroup rs d).map (·.comments_count)).sum
    shares_count := ((dateGroup rs d).map (·.shares_count)).sum
    time_spent_on_post := ((dateGroup rs d).map (·.time_spent_on_post)).sum
    night_usage_minutes := ((dateGroup rs d).map (·.night_usage_minutes)).sum }

/-- `DataProcessor._calculate_daily_aggregates`: pandas `groupby('date')`
groups by the distinct calendar dates (sorted ascending) and aggregates each
group with the stated mean/sum functions. -/
def calculateDailyAggregates (rs : List Record) : List DailyAggregate :=
  (List.insertionSort (fun a b : ℤ => a ≤ b) (rs.map recDate).dedup).map
    (dailyAggregateFor rs)

/-- The `df = df.sort_values('timestamp')` step of `process_data`, modelled as
a stable sort by timestamp. -/
def sortByTimestamp (rs : List Record) : List Record :=
  List.insertionSort (fun a b => a.timestamp ≤ b.timestamp) rs

/-- `DataProcessor._analyze_engagement_patterns`: per-record
(likes, comments, sentiment) triples, in dataframe order. -/
def analyzeEngagementPatterns (rs : List Record) : List (ℤ × ℤ × ℚ) :=
  rs.map fun r => (r.likes_count, r.comments_count, r.sentiment_score)

/-- Python's `round(x, 1)` on exact values: round to one decimal digit with
ties going to an even tenth (banker's rounding). -/
def round1 (q : ℚ) : ℚ :=
  let f : ℤ := ⌊10 * q⌋
  let frac := 10 * q - f
  if frac < 1/2 then (f : ℚ) / 10
  else if 1/2 < frac then (f + 1 : ℚ) / 10
  else if f % 2 = 0 then (f : ℚ) / 10 else (f + 1 : ℚ) / 10

/-- Chart point (`models.ChartDataPoint`): all fields optional. -/
structure ChartDataPoint where
  date : Option String := none
  sentiment_score : Option ℚ := none
  category : Option String := none
  percentage : Option ℚ := none
  likes : Option ℤ := none
  comments : Option ℤ := none
  emotional_tone : Option ℚ := none
  word : Option String := none
  frequency : Option ℕ := none
  id : Option ℕ := none
  text : Option String := none
deriving DecidableEq

/-- Chart series (`models.ChartData`). -/
structure ChartData where
  chart_type : String
  title : String
  data : List ChartDataPoint
  value : Option ℚ := none
  range : Option (ℚ × ℚ) := none
  status : Option String := none
deriving DecidableEq

/-- The six-series response (`models.AnalysisResponse`). -/
structure AnalysisResponse where
  emotional_trend : ChartData
  mental_health_categories : ChartData
  engagement_vs_mood : ChartData
  topics_discussed : ChartData
  wellbeing_index : ChartData
  recommendations : ChartData
deriving DecidableEq

/-- One scatter point of the "Engagement vs Mood" chart, as built in
`prepare_chart_data` (sentiment rounded to one decimal). -/
def scatterPoint (likes comments : ℤ) (tone : ℚ) : ChartDataPoint :=
  { likes := some likes, comments := some comments, emotional_tone := some (round1 tone) }

/-- The "Engagement vs Mood" chart of `prepare_chart_data`, applied to the
engagement patterns that `process_data` computed from the timestamp-sorted
dataframe; the series is truncated to 5 points. -/
def engagementVsMoodChart (rs : List Record) : ChartData :=
  let patterns := analyzeEngagementPatterns (sortByTimestamp rs)
  { chart_type := "scatter"
    title := "Engagement vs Mood"
    data := (patterns.take 5).map fun p => scatterPoint p.1 p.2.1 p.2.2 }

/-- Outcome of one external-generator interaction, at the granularity the
orchestrator inspects it: the call raised, the response text was not valid
JSON, it parsed to a non-list value, or it parsed to a list of strings. -/
inductive ExtResult where
  | err : ExtResult
  | notJson : ExtResult
  | nonList : ExtResult
  | strList : List String → ExtResult
deriving DecidableEq

/-- `OpenAIService._get_fallback_recommendations`: the fixed 4-item list. -/
def fallbackRecommendations : List String :=
  ["Try a 10-minute mindfulness meditation before starting your day.",
   "Take a short walk after lunch to reduce mid-day stress.",
   "Limit late-night screen time to improve sleep quality.",
   "Reach out to a friend or colleague for social connection."]

/-- `OpenAIService._generate_recommendations`: the external generator is
invoked once (only call number 0 of the generator is consumed); a parsed list
with at least 4 items is truncated to its first 4, every other outcome yields
the fallback list. -/
def generateRecommendations (gen : ℕ → ExtResult) : List String :=
  match gen 0 with
  | .strList items => if 4 ≤ items.length then items.take 4 else fallbackRecommendations
  | _ => fallbackRecommendations

/-- Canonical fallback response, translated literally from
`main.get_fallback_analysis`. -/
def fallbackAnalysis : AnalysisResponse :=
  { emotional_trend :=
      { chart_type := "line"
        title := "Daily Sentiment Over Time"
        data :=
          [{ date := some "2025-01-15", sentiment_score := some 65 },
           { date := some "2025-01-16", sentiment_score := some 72 },
           { date := some "2025-01-17", sentiment_score := some 58 },
           { date := some "2025-01-18", sentiment_score := some 81 },
           { date := some "2025-01-19", sentiment_score := some 69 },
           { date := some "2025-01-20", sentiment_score := some 75 },
           { date := some "2025-01-21", sentiment_score := some 83 }] }
    mental_health_categories :=
      { chart_type := "pie"
        title := "Distribution of Anxiety/Stress/Depression Indicators"
        data :=
          [{ category := some "Anxiety", percentage := some 35 },
           { category := some "Stress", percentage := some 45 },
           { category := some "Depression", percentage := some 20 }] }
    engagement_vs_mood :=
      { chart_type := "scatter"
        title := "Engagement vs Mood"
        data :=
          [{ likes := some 12, comments := some 3, emotional_tone := some 65 },
           { likes := some 25, comments := some 7, emotional_tone := some 72 },
           { likes := some 8, comments := some 1, emotional_tone := some 58 },
           { likes := some 35, comments := some 9, emotional_tone := some 81 },
           { likes := some 18, comments := some 4, emotional_tone := some 69 }] }
    topics_discussed :=
      { chart_type := "word_cloud"
        title := "Top Stress-Related Words"
        data :=
          [{ word := some "workload", frequency := some 42 },
           { word := some "deadline", frequency := some 37 },
           { word := some "sleep", frequency := some 30 },
           { word := some "balance", frequency := some 25 },
           { word := some "family", frequency := some 21 },
           { word := some "exercise", frequency := some 18 },
           { word := some "burnout", frequency := some 14 }] }
    wellbeing_index :=
      { chart_type := "gauge"
        title := "Overall Wellbeing Score"
        data := []
        value := some 76
        range := some (0, 100)
        status := some "Stable" }
    recommendations :=
      { chart_type := "text_cards"
        title := "Personalized Suggestions"
        data :=
          [{ id := some 1, text := some "Try a 10-minute mindfulness meditation before starting your day." },
           { id := some 2, text := some "Take a short walk after lunch to reduce mid-day stress." },
           { id := some 3, text := some "Limit late-night screen time to improve sleep quality." },
           { id := some 4, text := some "Reach out to a friend or colleague for social connection." }] } }

/-- Outcome of running the core analysis on a dataset: a computed response, or
an exception raised somewhere inside processing. -/
inductive AnalysisOutcome where
  | ok : AnalysisResponse → AnalysisOutcome
  | exc : AnalysisOutcome
deriving DecidableEq

/-- `main.analyze_mental_health_data`: empty and too-small batches raise
`HTTPException(400, ...)`, which the handler re-raises (a surfaced validation
error, modelled as `Except.error` with the status and detail message); any
other exception during processing is replaced by the canonical fallback
response. -/
def analyzeEndpoint (dataPoints : List Record) (outcome : AnalysisOutcome) :
    Except (ℕ × String) AnalysisResponse :=
  if dataPoints.isEmpty then .error (400, "No data points provided")
  else if dataPoints.length < 5 then
    .error (400, "At least 5 data points required for meaningful analysis")
  else
    match outcome with
    | .ok r => .ok r
    | .exc => .ok fallbackAnalysis

/-- `main.analyze_batch_data`: each dataset is processed in order inside its
own try/except; a failing dataset contributes the canonical fallback response
and processing continues with the next dataset. -/
def analyzeBatch (outcomes : List AnalysisOutcome) : List AnalysisResponse :=
  outcomes.map fun o =>
    match o with
    | .ok r => r
    | .exc => fallbackAnalysis

/-- Tokenizer written from the wording of claim C7: every character that is
not alphanumeric and not whitespace (hence also the underscore) is replaced
with a space before splitting on whitespace.  Kept for comparison with the
source-translated `tokenizeText`. -/
def specC7Tokenize (caption hashtags : String) : List (List Char) :=
  splitWsAux
    (((caption ++ " " ++ hashtags).toList.map Char.toLower).map
      fun c => if c.isAlphanum || c.isWhitespace then c else ' ') []

/-- Tokenizer written from the amended wording of claim C7: a character is
kept when it is alphanumeric, an underscore, or whitespace, and replaced with
a space otherwise (so an underscore does not separate tokens). -/
def specC7AmendedTokenize (caption hashtags : String) : List (List Char) :=
  splitWsAux
    (((caption ++ " " ++ hashtags).toList.map Char.toLower).map
      fun c => if (c.isAlphanum || c = '_') || c.isWhitespace then c else ' ') []

/-- Scatter series written from the wording of claim C6: per-point likes,
comments and rounded sentiment of the first 5 records in the original batch
order.  Kept for comparison with the source-translated chart. -/
def specC6ScatterData (rs : List Record) : List ChartDataPoint :=
  (rs.take 5).map fun r => scatterPoint r.likes_count r.comments_count r.sentiment_score

/-- Convenience constructor for concrete records: fields the respective
claims do not constrain are zeroed. -/
def mkRecord (ts : ℚ) (cap hsh : String) (sent eng wb : ℚ) (likes comments : ℤ) : Record :=
  { timestamp := ts
    caption_text := cap
    hashtags := hsh
    sentiment_score := sent
    engagement_score := eng
    wellbeing_index := wb
    likes_count := likes
    comments_count := comments
    shares_count := 0
    time_spent_on_post := 0
    night_usage_minutes := 0 }

/-- Concrete record matching the spec's end-to-end example. -/
def anxiousRecord : Record :=
  mkRecord 0 "I feel anxious and stressed about the deadline" "" 50 50 50 0 0

/-- Batch of 5 identical records, the spec's end-to-end example. -/
def sampleBatch : List Record :=
  [anxiousRecord, anxiousRecord, anxiousRecord, anxiousRecord, anxiousRecord]

/-- Concrete record for topic-analysis witnesses. -/
def topicRecord : Record :=
  mkRecord 0 "deadline stress deadline" "#sleep" 40 60 70 3 1

/-- Tiny two-day batch, listed in reverse chronological order. -/
def twoDayBatch : List Record :=
  [mkRecord (3/2) "b" "" 30 40 50 2 3, mkRecord (1/4) "a" "" 10 20 90 5 7]

/-- Batch of 5 records whose timestamps strictly decrease while the likes
counts strictly increase; input order and chronological order disagree. -/
def reversedBatch : List Record :=
  [mkRecord 5 "p" "" 50 50 50 1 0, mkRecord 4 "q" "" 50 50 50 2 0,
   mkRecord 3 "r" "" 50 50 50 3 0, mkRecord 2 "s" "" 50 50 50 4 0,
   mkRecord 1 "t" "" 50 50 50 5 0]

/-- Minimal chart value for building concrete responses in witnesses. -/
def emptyChart : ChartData :=
  { chart_type := "line", title := "t", data := [] }

/-- Minimal concrete response for endpoint witnesses. -/
def testResponse : AnalysisResponse :=
  { emotional_trend := emptyChart
    mental_health_categories := emptyChart
    engagement_vs_mood := emptyChart
    topics_discussed := emptyChart
    wellbeing_index := emptyChart
    recommendations := emptyChart }

/-- Tie-breaking index of a vocabulary word. -/
def vocabIdx (w : String) : ℕ := List.indexOf w stressWords

/-- Order claimed for the topic ranking: strictly greater frequency first,
ties by vocabulary position. -/
def topicOrder (a b : String × ℕ) : Prop :=
  b.2 < a.2 ∨ (a.2 = b.2 ∧ vocabIdx a.1 < vocabIdx b.1)

/-- Helper: a count-over-total percentage is between 0 and 100. -/
theorem pct_nonneg_le_hundred (c n : ℕ) (hn : 0 < n) (hc : c ≤ n) :
    0 ≤ (c : ℚ) / n * 100 ∧ (c : ℚ) / n * 100 ≤ 100 := by
  have hn' : (0 : ℚ) < n := by exact_mod_cast hn
  have hc' : (c : ℚ) ≤ n := by exact_mod_cast hc
  constructor
  · positivity
  · have h1 : (c : ℚ) / n ≤ 1 := (div_le_one hn').mpr hc'
    calc (c : ℚ) / n * 100 ≤ 1 * 100 := by
          exact mul_le_mul_of_nonneg_right h1 (by norm_num)
      _ = 100 := by norm_num

/-- C1: for every non-empty record batch, each of the three indicator
percentages (Anxiety, Stress, Depression) equals (number of records whose
lowercased caption-plus-hashtag text contains at least one of that category's
trigger substrings / total records) × 100; the categories are evaluated
independently by case-insensitive substring containment; each percentage lies
in [0, 100]. -/
theorem C1_indicator_percentages (rs : List Record) (hne : rs ≠ []) :
    (extractMentalHealthIndicators rs).anxiety =
      (rs.countP (matchesCategory anxietyKeywords) : ℚ) / rs.length * 100 ∧
    (extractMentalHealthIndicators rs).stress =
      (rs.countP (matchesCategory stressKeywords) : ℚ) / rs.length * 100 ∧
    (extractMentalHealthIndicators rs).depression =
      (rs.countP (matchesCategory depressionKeywords) : ℚ) / rs.length * 100 ∧
    (0 ≤ (extractMentalHealthIndicators rs).anxiety ∧
      (extractMentalHealthIndicators rs).anxiety ≤ 100) ∧
    (0 ≤ (extractMentalHealthIndicators rs).stress ∧
      (extractMentalHealthIndicators rs).stress ≤ 100) ∧
    (0 ≤ (extractMentalHealthIndicators rs).depression ∧
      (extractMentalHealthIndicators rs).depression ≤ 100) ∧
    (∀ r : Record, ∀ kws : List String,
      matchesCategory kws r = true ↔ ∃ kw ∈ kws, kw.toList <:+: combinedLowerText r) := by
  have hlen : 0 < rs.length := List.length_pos.mpr hne
  refine ⟨rfl, rfl, rfl, ?_, ?_, ?_, ?_⟩
  · exact pct_nonneg_le_hundred _ _ hlen (List.countP_le_length _)
  · exact pct_nonneg_le_hundred _ _ hlen (List.countP_le_length _)
  · exact pct_nonneg_le_hundred _ _ hlen (List.countP_le_length _)
  · intro r kws
    simp [matchesCategory, containsKeyword, List.any_eq_true]

/-- C1 witness: the spec's end-to-end example, five identical records whose
text contains the substrings "stress" (an anxiety and a stress trigger) and
"deadline" but no depression trigger. -/
theorem C1_indicator_percentages_witness :
    sampleBatch ≠ [] ∧
    extractMentalHealthIndicators sampleBatch =
      { anxiety := 100, stress := 100, depression := 0 } := by
  have h := C1_indicator_percentages sampleBatch (by decide)
  refine ⟨by decide, ?_⟩
  have ha : List.countP (matchesCategory anxietyKeywords) sampleBatch = 5 := by decide
  have hs : List.countP (matchesCategory stressKeywords) sampleBatch = 5 := by decide
  have hd : List.countP (matchesCategory depressionKeywords) sampleBatch = 0 := by decide
  have hl : sampleBatch.length = 5 := by decide
  simp only [extractMentalHealthIndicators, ha, hs, hd, hl, Indicators.mk.injEq]
  norm_num

/-- C2: the wellbeing computation returns the arithmetic means of the
wellbeing_index, sentiment_score and engagement_score fields, and the status
label is determined solely by the mean wellbeing index via the top-down
ladder ≥80 Excellent / ≥60 Good / ≥40 Stable / otherwise Needs Attention;
boundary values 80, 60, 40 map to Excellent, Good, Stable and 79.99, 59.99,
39.99 map to Good, Stable, Needs Attention. -/
theorem C2_wellbeing_metrics (rs : List Record) (hne : rs ≠ []) :
    (calculateWellbeingMetrics rs).wellbeing_score = listMean (rs.map (·.wellbeing_index)) ∧
    (calculateWellbeingMetrics rs).sentiment_score = listMean (rs.map (·.sentiment_score)) ∧
    (calculateWellbeingMetrics rs).engagement_score = listMean (rs.map (·.engagement_score)) ∧
    (calculateWellbeingMetrics rs).status =
      wellbeingStatus ((calculateWellbeingMetrics rs).wellbeing_score) ∧
    (∀ q : ℚ, 80 ≤ q → wellbeingStatus q = "Excellent") ∧
    (∀ q : ℚ, 60 ≤ q → q < 80 → wellbeingStatus q = "Good") ∧
    (∀ q : ℚ, 40 ≤ q → q < 60 → wellbeingStatus q = "Stable") ∧
    (∀ q : ℚ, q < 40 → wellbeingStatus q = "Needs Attention") ∧
    wellbeingStatus 80 = "Excellent" ∧ wellbeingStatus (7999 / 100) = "Good" ∧
    wellbeingStatus 60 = "Good" ∧ wellbeingStatus (5999 / 100) = "Stable" ∧
    wellbeingStatus 40 = "Stable" ∧ wellbeingStatus (3999 / 100) = "Needs Attention" := by
  refine ⟨rfl, rfl, rfl, rfl, ?_, ?_, ?_, ?_, by norm_num [wellbeingStatus],
    by norm_num [wellbeingStatus], by norm_num [wellbeingStatus],
    by norm_num [wellbeingStatus], by norm_num [wellbeingStatus],
    by norm_num [wellbeingStatus]⟩
  · intro q h80
    rw [wellbeingStatus, if_pos h80]
  · intro q h60 h80
    rw [wellbeingStatus, if_neg (not_le.mpr h80), if_pos h60]
  · intro q h40 h60
    rw [wellbeingStatus, if_neg (not_le.mpr (h60.trans_le (by norm_num))),
      if_neg (not_le.mpr h60), if_pos h40]
  · intro q h40
    rw [wellbeingStatus, if_neg (not_le.mpr (h40.trans_le (by norm_num))),
      if_neg (not_le.mpr (h40.trans_le (by norm_num))), if_neg (not_le.mpr h40)]

/-- C2 witness: the five-record sample batch has all three means equal to 50
and lands in the "Stable" band. -/
theorem C2_wellbeing_metrics_witness :
    sampleBatch ≠ [] ∧
    calculateWellbeingMetrics sampleBatch =
      { wellbeing_score := 50, sentiment_score := 50, engagement_score := 50,
        status := "Stable" } := by
  have h := C2_wellbeing_metrics sampleBatch (by decide)
  refine ⟨by decide, ?_⟩
  have hmw : sampleBatch.map (·.wellbeing_index) = [(50 : ℚ), 50, 50, 50, 50] := rfl
  have hms : sampleBatch.map (·.sentiment_score) = [(50 : ℚ), 50, 50, 50, 50] := rfl
  have hme : sampleBatch.map (·.engagement_score) = [(50 : ℚ), 50, 50, 50, 50] := rfl
  have hmean : listMean [(50 : ℚ), 50, 50, 50, 50] = 50 := by
    norm_num [listMean, List.sum_cons, List.sum_nil]
  have hst : wellbeingStatus 50 = "Stable" := by norm_num [wellbeingStatus]
  simp only [calculateWellbeingMetrics, hmw, hms, hme, hmean, hst,
    WellbeingMetrics.mk.injEq]

/-- C3: for every external-generator behaviour, the recommendation
orchestrator consumes only the first call's outcome (no retry); a parsed list
with at least 4 items is truncated to its first 4; every other outcome
(exception, non-JSON, non-list, or a list with fewer than 4 items) yields the
fixed 4-item fallback list. -/
theorem C3_recommendation_fallback (gen : ℕ → ExtResult) :
    (∀ items : List String, gen 0 = .strList items → 4 ≤ items.length →
      generateRecommendations gen = items.take 4) ∧
    (∀ items : List String, gen 0 = .strList items → items.length < 4 →
      generateRecommendations gen = fallbackRecommendations) ∧
    (gen 0 = .err → generateRecommendations gen = fallbackRecommendations) ∧
    (gen 0 = .notJson → generateRecommendations gen = fallbackRecommendations) ∧
    (gen 0 = .nonList → generateRecommendations gen = fallbackRecommendations) ∧
    (∀ gen2 : ℕ → ExtResult, gen 0 = gen2 0 →
      generateRecommendations gen = generateRecommendations gen2) ∧
    fallbackRecommendations.length = 4 := by
  refine ⟨?_, ?_, ?_, ?_, ?_, ?_, rfl⟩
  · intro items h hlen
    rw [generateRecommendations, h]
    simp [hlen]
  · intro items h hlen
    rw [generateRecommendations, h]
    simp [Nat.not_le.mpr hlen]
  · intro h; rw [generateRecommendations, h]
  · intro h; rw [generateRecommendations, h]
  · intro h; rw [generateRecommendations, h]
  · intro gen2 h
    rw [generateRecommendations, generateRecommendations, h]

/-- C3 witness: a 5-item response is truncated to its first 4 items, while a
3-item response and a failed call both yield the fallback list. -/
theorem C3_recommendation_fallback_witness :
    generateRecommendations (fun _ => .strList ["a", "b", "c", "d", "e"]) =
      ["a", "b", "c", "d"] ∧
    generateRecommendations (fun _ => .strList ["a", "b", "c"]) = fallbackRecommendations ∧
    generateRecommendations (fun _ => .err) = fallbackRecommendations := by
  refine ⟨?_, ?_, ?_⟩
  · exact (C3_recommendation_fallback _).1 ["a", "b", "c", "d", "e"] rfl (by decide)
  · exact (C3_recommendation_fallback _).2.1 ["a", "b", "c"] rfl (by decide)
  · exact (C3_recommendation_fallback _).2.2.1 rfl

/-- C8: at the analyze request boundary, an empty batch and a batch with
fewer than 5 records are rejected with a surfaced HTTP 400 validation error
(independently of how processing would have gone), while any processing
exception on a large-enough batch is replaced by the canonical fallback
response. -/
theorem C8_request_boundary (dps : List Record) (oc : AnalysisOutcome) :
    (dps = [] → analyzeEndpoint dps oc = .error (400, "No data points provided")) ∧
    (dps ≠ [] → dps.length < 5 →
      analyzeEndpoint dps oc =
        .error (400, "At least 5 data points required for meaningful analysis")) ∧
    (5 ≤ dps.length → ∀ r, oc = .ok r → analyzeEndpoint dps oc = .ok r) ∧
    (5 ≤ dps.length → oc = .exc → analyzeEndpoint dps oc = .ok fallbackAnalysis) := by
  refine ⟨?_, ?_, ?_, ?_⟩
  · rintro rfl; rfl
  · intro hne hlt
    have hemp : dps.isEmpty = false := by
      cases dps with
      | nil => exact absurd rfl hne
      | cons a t => rfl
    simp [analyzeEndpoint, hemp, hlt]
  · intro hge r hoc
    subst hoc
    have hemp : dps.isEmpty = false := by
      cases dps with
      | nil => simp at hge
      | cons a t => rfl
    simp [analyzeEndpoint, hemp, Nat.not_lt.mpr hge]
  · intro hge hoc
    subst hoc
    have hemp : dps.isEmpty = false := by
      cases dps with
      | nil => simp at hge
      | cons a t => rfl
    simp [analyzeEndpoint, hemp, Nat.not_lt.mpr hge]

/-- C8 witness: the three boundary behaviours at concrete inputs — empty
batch rejected, 3-record batch rejected, 5-record batch with a processing
exception answered with the fallback response. -/
theorem C8_request_boundary_witness :
    analyzeEndpoint [] (.ok testResponse) = .error (400, "No data points provided") ∧
    analyzeEndpoint [anxiousRecord, anxiousRecord, anxiousRecord] .exc =
      .error (400, "At least 5 data points required for meaningful analysis") ∧
    analyzeEndpoint sampleBatch .exc = .ok fallbackAnalysis ∧
    analyzeEndpoint sampleBatch (.ok testResponse) = .ok testResponse := by
  refine ⟨?_, ?_, ?_, ?_⟩
  · exact (C8_request_boundary [] (.ok testResponse)).1 rfl
  · exact (C8_request_boundary _ .exc).2.1 (by decide) (by decide)
  · exact (C8_request_boundary sampleBatch .exc).2.2.2 (by decide) rfl
  · exact (C8_request_boundary sampleBatch _).2.2.1 (by decide) testResponse rfl

/-- C9: in batch analysis the result has exactly one entry per dataset; a
dataset whose processing raised contributes the canonical fallback response
at its own position only, and every successfully processed dataset's real
result is kept; in particular 3 datasets whose middle one raises produce
[real, fallback, real]. -/
theorem C9_batch_isolation (ocs : List AnalysisOutcome) :
    (analyzeBatch ocs).length = ocs.length ∧
    (∀ i : ℕ, ocs[i]? = some .exc → (analyzeBatch ocs)[i]? = some fallbackAnalysis) ∧
    (∀ i : ℕ, ∀ r, ocs[i]? = some (.ok r) → (analyzeBatch ocs)[i]? = some r) ∧
    (∀ r1 r3, analyzeBatch [.ok r1, .exc, .ok r3] = [r1, fallbackAnalysis, r3]) := by
  refine ⟨List.length_map _ _, ?_, ?_, ?_⟩
  · intro i h
    rw [analyzeBatch, List.getElem?_map, h]
    rfl
  · intro i r h
    rw [analyzeBatch, List.getElem?_map, h]
    rfl
  · intro r1 r3; rfl

/-- C9 witness: three concrete datasets with the middle one failing yield
exactly three results with only the middle one replaced by the fallback. -/
theorem C9_batch_isolation_witness :
    analyzeBatch [.ok testResponse, .exc, .ok testResponse] =
      [testResponse, fallbackAnalysis, testResponse] ∧
    (analyzeBatch [.ok testResponse, .exc, .ok testResponse]).length = 3 := by
  refine ⟨(C9_batch_isolation [.ok testResponse, .exc, .ok testResponse]).2.2.2
    testResponse testResponse, ?_⟩
  rw [(C9_batch_isolation [.ok testResponse, .exc, .ok testResponse]).1]
  rfl


/-- C10: the indicator percentages, the topic-frequency ranking and the
wellbeing summary are invariant under permutation of the record batch — they
depend only on the multiset of records. -/
theorem C10_order_invariance (rs rs2 : List Record) (h : rs.Perm rs2) :
    extractMentalHealthIndicators rs = extractMentalHealthIndicators rs2 ∧
    analyzeTopics rs = analyzeTopics rs2 ∧
    calculateWellbeingMetrics rs = calculateWellbeingMetrics rs2 := by
  have hlen := h.length_eq
  have hcount : ∀ w : List Char, (allWords rs).count w = (allWords rs2).count w :=
    fun w => (h.flatMap_right recordTokens).countP_eq _
  have hmean : ∀ f : Record → ℚ, listMean (rs.map f) = listMean (rs2.map f) := by
    intro f
    rw [listMean, listMean, (h.map f).sum_eq, (h.map f).length_eq]
  refine ⟨?_, ?_, ?_⟩
  · simp only [extractMentalHealthIndicators, h.countP_eq, hlen]
  · simp only [analyzeTopics, hcount]
  · simp only [calculateWellbeingMetrics, hmean]

/-- C10 witness: reversing the concrete two-record batch changes none of the
three outputs. -/
theorem C10_order_invariance_witness :
    twoDayBatch.reverse.Perm twoDayBatch ∧
    extractMentalHealthIndicators twoDayBatch.reverse =
      extractMentalHealthIndicators twoDayBatch ∧
    analyzeTopics twoDayBatch.reverse = analyzeTopics twoDayBatch ∧
    calculateWellbeingMetrics twoDayBatch.reverse = calculateWellbeingMetrics twoDayBatch := by
  have hp : twoDayBatch.reverse.Perm twoDayBatch := twoDayBatch.reverse_perm
  have h := C10_order_invariance _ _ hp
  exact ⟨hp, h.1, h.2.1, h.2.2⟩

/-- C7 counterexample: Python's regex class `\w` contains the underscore, so
the tokenizer keeps it: the caption "a_b" yields the single token "a_b",
whereas the claim's replace-everything-not-alphanumeric rule would split it
into "a" and "b". -/
theorem C7_tokenization_counterexample :
    tokenizeText "a_b" "" = [['a', '_', 'b']] ∧
    specC7Tokenize "a_b" "" = [['a'], ['b']] ∧
    tokenizeText "a_b" "" ≠ specC7Tokenize "a_b" "" := by decide

/-- C7 amended: the tokenizer concatenates caption and hashtag text,
lowercases it, replaces every character that is not alphanumeric, not an
underscore and not whitespace with a space, and splits on whitespace; the
underscore is kept as a word character and does not separate tokens. -/
theorem C7_tokenization_amended :
    (∀ caption hashtags : String,
      tokenizeText caption hashtags = specC7AmendedTokenize caption hashtags) ∧
    tokenizeText "self_care! day" "#stress" =
      ["self_care".toList, "day".toList, "stress".toList] := by
  refine ⟨fun caption hashtags => rfl, by decide⟩

/-- C6 counterexample: on a 5-record batch whose timestamps strictly decrease
while the likes counts strictly increase, the scatter series shows the
records in timestamp order (likes 5,4,3,2,1), not in the original batch
order (likes 1,2,3,4,5) the claim describes. -/
theorem C6_scatter_counterexample :
    (engagementVsMoodChart reversedBatch).data ≠ specC6ScatterData reversedBatch := by
  intro h
  have hL : (engagementVsMoodChart reversedBatch).data.map (·.likes) =
      [some 5, some 4, some 3, some 2, some 1] := by
    norm_num [engagementVsMoodChart, analyzeEngagementPatterns, sortByTimestamp,
      reversedBatch, mkRecord, List.insertionSort, List.orderedInsert, scatterPoint]
  have hR : (specC6ScatterData reversedBatch).map (·.likes) =
      [some 1, some 2, some 3, some 4, some 5] := by
    norm_num [specC6ScatterData, reversedBatch, mkRecord, scatterPoint]
  rw [h, hR] at hL
  exact absurd hL (by decide)

/-- C6 amended: for every batch with at least 5 records, the scatter series
contains exactly the likes, comments and rounded sentiment of the first 5
records of the batch after sorting it by timestamp ascending (the pipeline
sorts before sampling), with no aggregation, and has exactly 5 points. -/
theorem C6_scatter_amended (rs : List Record) (h5 : 5 ≤ rs.length) :
    (engagementVsMoodChart rs).data =
      ((sortByTimestamp rs).take 5).map
        (fun r => scatterPoint r.likes_count r.comments_count r.sentiment_score) ∧
    (engagementVsMoodChart rs).data.length = 5 := by
  constructor
  · show ((analyzeEngagementPatterns (sortByTimestamp rs)).take 5).map
        (fun p => scatterPoint p.1 p.2.1 p.2.2) = _
    rw [analyzeEngagementPatterns, ← List.map_take, List.map_map]
    rfl
  · show (((analyzeEngagementPatterns (sortByTimestamp rs)).take 5).map
        (fun p => scatterPoint p.1 p.2.1 p.2.2)).length = 5
    rw [List.length_map, List.length_take, analyzeEngagementPatterns,
      List.length_map, sortByTimestamp, List.length_insertionSort]
    omega

/-- C6 amended witness: the concrete 5-record batch satisfies the length
hypothesis and its scatter series has exactly 5 points. -/
theorem C6_scatter_amended_witness :
    5 ≤ reversedBatch.length ∧ (engagementVsMoodChart reversedBatch).data.length = 5 :=
  ⟨by decide, (C6_scatter_amended reversedBatch (by decide)).2⟩

/-- Helper: the claimed ranking order implies a frequency comparison. -/
theorem le_of_topicOrder {a b : String × ℕ} (h : topicOrder a b) : b.2 ≤ a.2 := by
  rcases h with h | h
  · exact le_of_lt h
  · exact le_of_eq h.1.symm

/-- Helper: inserting an element into a `topicOrder`-pairwise list keeps it
pairwise, provided the element compares correctly with every list member. -/
theorem pairwise_orderedInsert_topic (x : String × ℕ) :
    ∀ l : List (String × ℕ), l.Pairwise topicOrder →
      (∀ y ∈ l, (y.2 ≤ x.2 → topicOrder x y) ∧ (x.2 < y.2 → topicOrder y x)) →
      (List.orderedInsert (fun a b => b.2 ≤ a.2) x l).Pairwise topicOrder := by
  intro l
  induction l with
  | nil =>
    intro _ _
    simp [List.orderedInsert]
  | cons b t ih =>
    intro hl hx
    rw [List.orderedInsert]
    split_ifs with hbx
    · refine List.Pairwise.cons ?_ hl
      intro z hz
      rcases List.mem_cons.mp hz with rfl | hzt
      · exact (hx z (List.mem_cons_self z t)).1 hbx
      · have hbz := (List.pairwise_cons.mp hl).1 z hzt
        have hzx : z.2 ≤ x.2 := le_trans (le_of_topicOrder hbz) hbx
        exact (hx z (List.mem_cons_of_mem b hzt)).1 hzx
    · refine List.Pairwise.cons ?_ (ih (List.pairwise_cons.mp hl).2
        (fun y hy => hx y (List.mem_cons_of_mem b hy)))
      intro z hz
      rcases (List.mem_orderedInsert _).mp hz with rfl | hzt
      · exact (hx b (List.mem_cons_self b t)).2 (Nat.not_le.mp hbx)
      · exact (List.pairwise_cons.mp hl).1 z hzt

/-- Helper: the stable insertion sort by descending frequency, applied to a
list already pairwise-increasing in vocabulary index, yields a list pairwise
in `topicOrder` (descending frequency, ties by vocabulary index). -/
theorem pairwise_insertionSort_topic :
    ∀ l : List (String × ℕ), l.Pairwise (fun a b => vocabIdx a.1 < vocabIdx b.1) →
      (List.insertionSort (fun a b => b.2 ≤ a.2) l).Pairwise topicOrder := by
  intro l
  induction l with
  | nil =>
    intro _
    simp
  | cons x t ih =>
    intro hl
    rw [List.insertionSort]
    refine pairwise_orderedInsert_topic x _ (ih (List.pairwise_cons.mp hl).2) ?_
    intro y hy
    have hyt : y ∈ t := (List.mem_insertionSort _).mp hy
    have hxy : vocabIdx x.1 < vocabIdx y.1 := (List.pairwise_cons.mp hl).1 y hyt
    constructor
    · intro hle
      rcases Nat.lt_or_eq_of_le hle with hlt | heq
      · exact Or.inl hlt
      · exact Or.inr ⟨heq.symm, hxy⟩
    · intro hlt
      exact Or.inl hlt

/-- Helper: the keep-occurring-words filterMap is a filter followed by
pairing each kept word with its count. -/
theorem filterMap_count_eq (cnt : String → ℕ) :
    ∀ l : List String,
      (l.filterMap fun w => if cnt w = 0 then none else some (w, cnt w)) =
        (l.filter fun w => decide (cnt w ≠ 0)).map fun w => (w, cnt w) := by
  intro l
  induction l with
  | nil => rfl
  | cons a t ih =>
    by_cases h : cnt a = 0 <;>
      simp [List.filterMap_cons, List.filter_cons, h, ih]

/-- Helper: the vocabulary list is strictly increasing in its own index. -/
theorem stressWords_pairwise :
    stressWords.Pairwise fun u v => vocabIdx u < vocabIdx v := by decide

/-- C4: the topic-frequency output has at most 7 pairs; every returned word
is a vocabulary word whose frequency is its actual token count (hence at
least 1); the pairs are pairwise ordered by strictly descending frequency
with ties broken by vocabulary order; and the number of pairs is exactly the
number of occurring vocabulary words capped at 7 (no padding). -/
theorem C4_topic_ranking (rs : List Record) :
    (analyzeTopics rs).length ≤ 7 ∧
    (∀ p ∈ analyzeTopics rs,
      p.1 ∈ stressWords ∧ 1 ≤ p.2 ∧ p.2 = (allWords rs).count p.1.toList) ∧
    (analyzeTopics rs).Pairwise topicOrder ∧
    (analyzeTopics rs).length =
      min 7 (stressWords.filter fun w => decide ((allWords rs).count w.toList ≠ 0)).length := by
  have hunf : analyzeTopics rs =
      (List.insertionSort (fun a b => b.2 ≤ a.2)
        ((stressWords.filter fun w => decide ((allWords rs).count w.toList ≠ 0)).map
          fun w => (w, (allWords rs).count w.toList))).take 7 := by
    rw [analyzeTopics, filterMap_count_eq (fun w => (allWords rs).count w.toList) stressWords]
  refine ⟨?_, ?_, ?_, ?_⟩
  · rw [hunf]
    exact List.length_take_le 7 _
  · intro p hp
    rw [hunf] at hp
    have hp2 := (List.mem_insertionSort _).mp (List.mem_of_mem_take hp)
    obtain ⟨w, hwmem, heq⟩ := List.mem_map.mp hp2
    obtain ⟨hwv, hwc⟩ := List.mem_filter.mp hwmem
    subst heq
    exact ⟨hwv, Nat.one_le_iff_ne_zero.mpr (of_decide_eq_true hwc), rfl⟩
  · rw [hunf]
    have h1 := stressWords_pairwise.filter fun w => decide ((allWords rs).count w.toList ≠ 0)
    have h2 : (((stressWords.filter fun w => decide ((allWords rs).count w.toList ≠ 0)).map
        fun w => (w, (allWords rs).count w.toList)).Pairwise
          fun a b => vocabIdx a.1 < vocabIdx b.1) := List.pairwise_map.mpr h1
    exact List.Pairwise.sublist (List.take_sublist 7 _) (pairwise_insertionSort_topic _ h2)
  · rw [hunf, List.length_take, List.length_insertionSort, List.length_map]

/-- C4 witness: a single record whose text mentions "deadline" twice,
"stress" once and "sleep" once yields exactly the three occurring vocabulary
words, in descending frequency with the tie broken by vocabulary order. -/
theorem C4_topic_ranking_witness :
    analyzeTopics [topicRecord] = [("deadline", 2), ("sleep", 1), ("stress", 1)] ∧
    (analyzeTopics [topicRecord]).length ≤ 7 :=
  ⟨by decide, (C4_topic_ranking [topicRecord]).1⟩

/-- Helper: the dates of the aggregates are the sorted deduplicated record
dates. -/
theorem aggregates_map_date (rs : List Record) :
    (calculateDailyAggregates rs).map (·.date) =
      List.insertionSort (fun a b : ℤ => a ≤ b) (rs.map recDate).dedup := by
  rw [calculateDailyAggregates, List.map_map]
  have hcomp : ((fun a : DailyAggregate => a.date) ∘ dailyAggregateFor rs) = id := rfl
  rw [hcomp, List.map_id]

/-- C5: daily aggregation groups records by the calendar date of their
timestamp; the aggregate dates are strictly ascending (hence duplicate-free),
every record's date appears, each aggregate carries the arithmetic means of
its date group's score fields and the sums of its count fields, and a date
whose group is a single record has means and sums equal to that record's
values. -/
theorem C5_daily_aggregates (rs : List Record) (hne : rs ≠ []) :
    ((calculateDailyAggregates rs).map (·.date)).Pairwise (· < ·) ∧
    (∀ r ∈ rs, recDate r ∈ (calculateDailyAggregates rs).map (·.date)) ∧
    (∀ a ∈ calculateDailyAggregates rs,
      dateGroup rs a.date ≠ [] ∧
      a.sentiment_score = listMean ((dateGroup rs a.date).map (·.sentiment_score)) ∧
      a.engagement_score = listMean ((dateGroup rs a.date).map (·.engagement_score)) ∧
      a.wellbeing_index = listMean ((dateGroup rs a.date).map (·.wellbeing_index)) ∧
      a.likes_count = ((dateGroup rs a.date).map (·.likes_count)).sum ∧
      a.comments_count = ((dateGroup rs a.date).map (·.comments_count)).sum ∧
      a.shares_count = ((dateGroup rs a.date).map (·.shares_count)).sum ∧
      a.time_spent_on_post = ((dateGroup rs a.date).map (·.time_spent_on_post)).sum ∧
      a.night_usage_minutes = ((dateGroup rs a.date).map (·.night_usage_minutes)).sum) ∧
    (∀ a ∈ calculateDailyAggregates rs, ∀ r : Record, dateGroup rs a.date = [r] →
      a.sentiment_score = r.sentiment_score ∧
      a.engagement_score = r.engagement_score ∧
      a.wellbeing_index = r.wellbeing_index ∧
      a.likes_count = r.likes_count ∧
      a.comments_count = r.comments_count ∧
      a.shares_count = r.shares_count ∧
      a.time_spent_on_post = r.time_spent_on_post ∧
      a.night_usage_minutes = r.night_usage_minutes) := by
  refine ⟨?_, ?_, ?_, ?_⟩
  · rw [aggregates_map_date]
    have hsorted := List.sorted_insertionSort (fun a b : ℤ => a ≤ b)
      (rs.map recDate).dedup
    have hnodup : (List.insertionSort (fun a b : ℤ => a ≤ b)
        (rs.map recDate).dedup).Nodup :=
      ((List.perm_insertionSort _ _).nodup_iff).mpr (List.nodup_dedup _)
    exact hsorted.lt_of_le hnodup
  · intro r hr
    rw [aggregates_map_date, List.mem_insertionSort]
    exact List.mem_dedup.mpr (List.mem_map_of_mem recDate hr)
  · intro a ha
    rw [calculateDailyAggregates] at ha
    obtain ⟨d, hd, rfl⟩ := List.mem_map.mp ha
    refine ⟨?_, rfl, rfl, rfl, rfl, rfl, rfl, rfl, rfl⟩
    have hd2 : d ∈ rs.map recDate :=
      List.mem_dedup.mp ((List.mem_insertionSort _).mp hd)
    obtain ⟨r, hr, hrd⟩ := List.mem_map.mp hd2
    have hrg : r ∈ dateGroup rs d :=
      List.mem_filter.mpr ⟨hr, decide_eq_true hrd⟩
    exact List.ne_nil_of_mem hrg
  · intro a ha r hgroup
    rw [calculateDailyAggregates] at ha
    obtain ⟨d, hd, rfl⟩ := List.mem_map.mp ha
    have hg : dateGroup rs d = [r] := hgroup
    refine ⟨?_, ?_, ?_, ?_, ?_, ?_, ?_, ?_⟩ <;>
      simp [dailyAggregateFor, hg, listMean]

/-- C5 witness: a two-record batch given in reverse chronological order, with
dates 1 and 0, aggregates into two singleton groups listed with strictly
ascending dates 0, 1 and the records' own values. -/
theorem C5_daily_aggregates_witness :
    twoDayBatch ≠ [] ∧
    calculateDailyAggregates twoDayBatch =
      [{ date := 0, sentiment_score := 10, engagement_score := 20, wellbeing_index := 90,
         likes_count := 5, comments_count := 7, shares_count := 0,
         time_spent_on_post := 0, night_usage_minutes := 0 },
       { date := 1, sentiment_score := 30, engagement_score := 40, wellbeing_index := 50,
         likes_count := 2, comments_count := 3, shares_count := 0,
         time_spent_on_post := 0, night_usage_minutes := 0 }] := by
  have h := C5_daily_aggregates twoDayBatch (by decide)
  refine ⟨by decide, ?_⟩
  have hmap : twoDayBatch.map recDate = [1, 0] := by
    norm_num [twoDayBatch, recDate, mkRecord, Int.floor_eq_iff]
  have hdedup : ([1, 0] : List ℤ).dedup = [1, 0] := by decide
  have hsort : List.insertionSort (fun a b : ℤ => a ≤ b) [1, 0] = [0, 1] := by decide
  have hg0 : dateGroup twoDayBatch 0 = [mkRecord (1/4) "a" "" 10 20 90 5 7] := by
    norm_num [dateGroup, twoDayBatch, mkRecord, recDate, List.filter_cons,
      Int.floor_eq_iff]
  have hg1 : dateGroup twoDayBatch 1 = [mkRecord (3/2) "b" "" 30 40 50 2 3] := by
    norm_num [dateGroup, twoDayBatch, mkRecord, recDate, List.filter_cons,
      Int.floor_eq_iff]
  rw [calculateDailyAggregates, hmap, hdedup, hsort]
  norm_num [dailyAggregateFor, hg0, hg1, mkRecord, listMean]

end KnowMe
